import Mathlib

/- Verification of the forex-signal bot core: instance lease management
(instance_manager.py), pair scanning and candidate selection
(bot_handlers.py), confidence blending and price-level computation
(analysis_engine.py). The Python code is embedded shallowly: floats are
modelled as rationals, dictionaries as structures with optional fields,
and the cooperative (asyncio) interleaving of the registry writers as a
labelled step relation. -/

namespace ForexBot

/-- Leading-segment test on character lists, used to model Python's
substring operator. -/
def listStartsWith : List Char → List Char → Bool
  | [], _ => true
  | _ :: _, [] => false
  | a :: as, b :: bs => a == b && listStartsWith as bs

/-- Contiguous-subsequence test on character lists. -/
def listContainsSeq (needle : List Char) : List Char → Bool
  | [] => needle.isEmpty
  | c :: rest => listStartsWith needle (c :: rest) || listContainsSeq needle rest

/-- Python's substring containment test, as in the expression
needle in hay on two strings. -/
def strContains (hay needle : String) : Bool :=
  listContainsSeq needle.toList hay.toList

/-- Round a rational to the nearest integer with ties going to the even
integer, which is what Python's builtin round does on exact halves. -/
def roundHalfEven (q : ℚ) : ℤ :=
  let f := ⌊q⌋
  let r := q - (f : ℚ)
  if r < 1 / 2 then f
  else if 1 / 2 < r then f + 1
  else if f % 2 = 0 then f else f + 1

/-- Python's round(x, 5): round to five decimal places. -/
def pyRound5 (x : ℚ) : ℚ :=
  (roundHalfEven (x * 100000) : ℚ) / 100000

/-- Pip scale chosen by calculate_stop_loss_take_profit
(analysis_engine.py lines 420-425): 100 when the instrument name
contains JPY, 100 for XAU/USD, otherwise 10000. -/
def pip_multiplier (pair : String) : ℚ :=
  if strContains pair "JPY" then 100
  else if pair = "XAU/USD" then 100
  else 10000

/-- calculate_stop_loss_take_profit (analysis_engine.py lines 417-438):
stop-loss and take-profit price levels from the entry price, the
direction string, the pip distances and the instrument, each rounded to
five decimal places. -/
def calculate_stop_loss_take_profit (entry_price : ℚ) (direction : String)
    (sl_pips tp_pips : ℚ) (pair : String) : ℚ × ℚ :=
  let m := pip_multiplier pair
  if strContains direction "BUY" then
    (pyRound5 (entry_price - sl_pips / m), pyRound5 (entry_price + tp_pips / m))
  else if strContains direction "SELL" then
    (pyRound5 (entry_price + sl_pips / m), pyRound5 (entry_price - tp_pips / m))
  else
    (pyRound5 (entry_price * (995 / 1000)), pyRound5 (entry_price * (1005 / 1000)))

/-- Signal record (data_models.py lines 105-123) restricted to the fields
the verified properties read; times, lot size and indicator snapshots are
omitted. -/
structure Signal where
  pair : String
  direction : String
  entry_price : ℚ
  confidence : ℚ
  stop_loss : ℚ
  take_profit : ℚ
  is_forced : Bool
deriving DecidableEq

/-- The dictionary returned by AIAnalyzer.analyze_pair, with every field
optional because the parsed JSON may lack any key. -/
structure AIResult where
  signal : Option String
  confidence : Option ℚ
  model_used : Option String
deriving DecidableEq

/-- How the Groq call inside AIAnalyzer.analyze_pair turns out: no API
key configured, the request raised, the response had no JSON object, the
JSON object failed to parse, or a parsed object with its fields. -/
inductive AICallEnv where
  | noKey
  | transportError
  | noJsonMatch
  | badJson
  | parsed (signal : Option String) (confidence : Option ℚ)
deriving DecidableEq

/-- AIAnalyzer.analyze_pair (analysis_engine.py lines 302-415) as a
function of the call environment; analysis_type only selects the model
name recorded in the result. -/
def analyze_pair (analysis_type : String) (env : AICallEnv) : AIResult :=
  let model := if analysis_type = "fast" then "llama-3.1-8b-instant"
               else "llama-3.3-70b-versatile"
  match env with
  | .noKey => ⟨some "NEUTRAL", some 50, some "No API Key"⟩
  | .transportError => ⟨some "NEUTRAL", some 50, some "error"⟩
  | .noJsonMatch => ⟨some "NEUTRAL", some 50, some model⟩
  | .badJson => ⟨some "NEUTRAL", some 50, some model⟩
  | .parsed s c => ⟨s, c, some model⟩

/-- Technical-analysis dictionary fields read by analyze_single_pair. -/
structure Technicals where
  direction : String
  confidence : ℚ
  price : ℚ
deriving DecidableEq

/-- The ai_analysis value in analyze_single_pair (bot_handlers.py lines
2076-2084): the empty dict (none) when no AI analyzer is configured, the
NEUTRAL/50 fallback dict when the awaited call raised, otherwise the
returned dict. -/
def ai_analysis_of (analyzer_present : Bool) (call : Except Unit AIResult) :
    Option AIResult :=
  if analyzer_present then
    match call with
    | .ok r => some r
    | .error _ => some ⟨some "NEUTRAL", some 50, some "error"⟩
  else none

/-- ai_confidence in analyze_single_pair (line 2087):
ai_analysis.get('confidence', 50) if ai_analysis else 50. -/
def ai_confidence_of (ai : Option AIResult) : ℚ :=
  match ai with
  | none => 50
  | some r => r.confidence.getD 50

/-- final_confidence in analyze_single_pair (lines 2090-2091): the 70/30
blend clamped into [0, 100] by min(100, max(0, x)). -/
def final_confidence (tech_confidence : ℚ) (ai : Option AIResult) : ℚ :=
  min 100 (max 0 (tech_confidence * (7 / 10) + ai_confidence_of ai * (3 / 10)))

/-- Direction choice in analyze_single_pair (lines 2093-2096): the AI
signal when the dict is non-empty, the signal key is present, truthy and
not NEUTRAL; otherwise the technical direction. -/
def direction_of (tech_direction : String) (ai : Option AIResult) : String :=
  match ai with
  | none => tech_direction
  | some r =>
    match r.signal with
    | none => tech_direction
    | some s => if s != "" && s != "NEUTRAL" then s else tech_direction

/-- Inputs of one analyze_single_pair run that come from collaborators or
settings: the trading-hours gate, the fetched market-data row count, the
technical-scorer output, the AI availability and call outcome, and the
adjustable pip settings. -/
structure PairEnv where
  in_trading_hours : Bool
  data_rows : ℕ
  technicals : Option Technicals
  ai_analyzer_present : Bool
  ai_call : Except Unit AIResult
  sl_pips : ℚ
  tp_pips : ℚ
  xau_tp_pips : ℚ

/-- analyze_single_pair (bot_handlers.py lines 2046-2155): returns none
when the pair is out of hours, the data has fewer than 5 rows, or the
technicals are missing or below the baseline of 30; otherwise builds the
Signal from the blended confidence, the chosen direction and the computed
price levels (XAU/USD uses its special take-profit setting). -/
def analyze_single_pair (pair : String) (env : PairEnv) : Option Signal :=
  if !env.in_trading_hours then none
  else if env.data_rows < 5 then none
  else
    match env.technicals with
    | none => none
    | some tech =>
      if tech.confidence < 30 then none
      else
        let ai := ai_analysis_of env.ai_analyzer_present env.ai_call
        let fc := final_confidence tech.confidence ai
        let dir := direction_of tech.direction ai
        let tp := if pair = "XAU/USD" then env.xau_tp_pips else env.tp_pips
        let levels := calculate_stop_loss_take_profit tech.price dir env.sl_pips tp pair
        some { pair := pair, direction := dir, entry_price := pyRound5 tech.price,
               confidence := fc, stop_loss := levels.1, take_profit := levels.2,
               is_forced := false }

/-- One gathered task result in a scan batch (bot_handlers.py lines
1972-1978): the analysis returned a Signal, returned None (pair skipped),
or raised. -/
inductive TaskResult where
  | sig (s : Signal)
  | skipped
  | raised
deriving DecidableEq

/-- Batch partitioning of scan_active_pairs (line 1964-1965):
pairs[i:i+3] for i in range(0, len(pairs), 3), unrolled. -/
def chunks3 : List α → List (List α)
  | [] => []
  | [a] => [[a]]
  | [a, b] => [[a, b]]
  | a :: b :: c :: rest => [a, b, c] :: chunks3 rest

/-- Insert one signal into a list that is already sorted by descending
confidence, placing it before the first element whose confidence does
not exceed its own, so that earlier-inserted equal-confidence elements
stay behind it. -/
def insertDesc (a : Signal) : List Signal → List Signal
  | [] => [a]
  | b :: rest =>
    if b.confidence ≤ a.confidence then a :: b :: rest
    else b :: insertDesc a rest

/-- The effect of Python's stable all_signals.sort(key=confidence,
reverse=True) (line 1986): descending by confidence, equal-confidence
elements keeping their collection order. -/
def pySortDesc : List Signal → List Signal
  | [] => []
  | a :: rest => insertDesc a (pySortDesc rest)

/-- The per-result filter of the gather loop (line 1975): keep the result
when it is a Signal whose confidence meets min_confidence. -/
def keepSignal (minConf : ℚ) : TaskResult → Option Signal
  | .sig s => if minConf ≤ s.confidence then some s else none
  | .skipped => none
  | .raised => none

/-- The all_signals accumulation across batches (lines 1962-1980); each
batch appends its passing results in task order. -/
def collectSignals (minConf : ℚ) (batchResults : List (List TaskResult)) :
    List Signal :=
  batchResults.foldl (fun acc results => acc ++ results.filterMap (keepSignal minConf)) []

/-- scan_active_pairs (bot_handlers.py lines 1949-1994) as a function of
the active-pair list and the per-pair analysis outcome. asyncio.gather
returns the batch results in task-creation order, which is the pair
order within the batch, so completion timing does not appear. The best
signal is the head of the stable descending sort, with is_forced reset. -/
def scan_active_pairs (minConf : ℚ) (analysis : String → TaskResult)
    (pairs : List String) : Option Signal :=
  if pairs.isEmpty then none
  else
    match (pySortDesc (collectSignals minConf
        ((chunks3 pairs).map fun batch => batch.map analysis))).head? with
    | none => none
    | some best => some { best with is_forced := false }

/-- Specification-side selection: the earliest element of the pool whose
confidence is maximal, i.e. ties go to the earliest batch and then the
earliest position within it, since the pool lists results in that order. -/
def firstTop (l : List Signal) : Option Signal :=
  l.find? (fun t => l.all (fun u => decide (u.confidence ≤ t.confidence)))

/-- Externally observable steps of one scan: a batch of concurrent
analyses, or the fixed pacing sleep (line 1980) that follows it. -/
inductive ScanEvent where
  | batchRun (pairs : List String)
  | pacingSleep
deriving DecidableEq

/-- The ordered step sequence of scan_active_pairs: batches strictly in
order, each followed by the pacing sleep. -/
def scanTrace (pairs : List String) : List ScanEvent :=
  (chunks3 pairs).foldr (fun b acc => .batchRun b :: .pacingSleep :: acc) []

/-- The mutually distinguishable outcomes the auto command surfaces
(bot_handlers.py lines 912-989). -/
inductive CmdOutcome where
  | secondaryInstance
  | registryOccupied
  | noActiveInstruments
  | noCandidate
  | signalStored (s : Signal)
deriving DecidableEq

/-- cmd_auto (bot_handlers.py lines 912-989) run without interleaving:
the secondary gate, the registry-occupied gate, the empty-active-list
report, then the scan; a produced signal is stored. Returns the surfaced
outcome and the registry afterwards. -/
def cmd_auto_outcome (is_primary : Bool) (registry : Option Signal)
    (minConf : ℚ) (analysis : String → TaskResult) (pairs : List String) :
    CmdOutcome × Option Signal :=
  if !is_primary then (.secondaryInstance, registry)
  else
    match registry with
    | some _ => (.registryOccupied, registry)
    | none =>
      if pairs.isEmpty then (.noActiveInstruments, registry)
      else
        match scan_active_pairs minConf analysis pairs with
        | none => (.noCandidate, registry)
        | some s => (.signalStored s, some s)

/-- Progress of one signal-producing operation: before its registry
check, scanning with the result its scan will eventually return, or
finished. -/
inductive ProducerPhase where
  | idle
  | scanning (result : Option Signal)
  | done
deriving DecidableEq

/-- Shared state of the registry writers: the single-slot registry
(self.current_signal), the manual command and the auto scanner. -/
structure RegistrySys where
  registry : Option Signal
  manual : ProducerPhase
  auto : ProducerPhase
deriving DecidableEq

/-- Interleaved small-step semantics of the two signal producers. Start
steps are the producers' emptiness checks (bot_handlers.py line 404 for
cmd_manual, line 2623 for auto_scanner), which happen before the awaited
scan; finish steps are the stores after the scan (lines 462-463 and
2641-2642), which the source performs without re-checking the registry.
The auto store additionally requires confidence at least 75 (line 2640). -/
inductive RegStep : RegistrySys → RegistrySys → Prop where
  | manualStart (s : RegistrySys) (res : Option Signal) :
      s.manual = .idle → s.registry = none →
      RegStep s { s with manual := .scanning res }
  | manualGuardFail (s : RegistrySys) (x : Signal) :
      s.manual = .idle → s.registry = some x →
      RegStep s { s with manual := .done }
  | manualFinishNone (s : RegistrySys) :
      s.manual = .scanning none →
      RegStep s { s with manual := .done }
  | manualFinishStore (s : RegistrySys) (sig : Signal) :
      s.manual = .scanning (some sig) →
      RegStep s { s with manual := .done, registry := some sig }
  | autoStart (s : RegistrySys) (res : Option Signal) :
      s.auto = .idle → s.registry = none →
      RegStep s { s with auto := .scanning res }
  | autoSkipOccupied (s : RegistrySys) (x : Signal) :
      s.auto = .idle → s.registry = some x →
      RegStep s { s with auto := .done }
  | autoFinishNone (s : RegistrySys) :
      s.auto = .scanning none →
      RegStep s { s with auto := .done }
  | autoFinishStore (s : RegistrySys) (sig : Signal) :
      s.auto = .scanning (some sig) → 75 ≤ sig.confidence →
      RegStep s { s with auto := .done, registry := some sig }
  | autoFinishWeak (s : RegistrySys) (sig : Signal) :
      s.auto = .scanning (some sig) → sig.confidence < 75 →
      RegStep s { s with auto := .done }

/-- Scheduler state read and written by one auto_scanner tick. -/
structure ScannerState where
  registry : Option Signal
  last_auto_scan : Option ℚ
deriving DecidableEq

/-- The due test of auto_scanner (bot_handlers.py lines 2624-2625): no
previous scan, or at least auto_scan_interval = 300 seconds elapsed. -/
def scan_due (last : Option ℚ) (now : ℚ) : Bool :=
  match last with
  | none => true
  | some t => decide (300 ≤ now - t)

/-- One body iteration of the auto_scanner loop (bot_handlers.py lines
2612-2657) run without interleaving, for a primary instance: when the
registry is empty and a scan is due, an empty active list only refreshes
the timestamp; otherwise one scan runs with min_confidence = 70, and its
result is stored only when its confidence is at least 75; the timestamp
is refreshed in every scanned case. -/
def auto_scanner_tick (st : ScannerState) (now : ℚ)
    (analysis : String → TaskResult) (pairs : List String) : ScannerState :=
  match st.registry with
  | some _ => st
  | none =>
    if !scan_due st.last_auto_scan now then st
    else if pairs.isEmpty then { st with last_auto_scan := some now }
    else
      match scan_active_pairs 70 analysis pairs with
      | some s =>
        if 75 ≤ s.confidence then { registry := some s, last_auto_scan := some now }
        else { st with last_auto_scan := some now }
      | none => { st with last_auto_scan := some now }

/-- The parsed JSON record stored in bot_instance.lock; times are seconds
on a common clock. The writers always set expires = timestamp + timeout. -/
structure LockRecord where
  instance_id : String
  timestamp : ℚ
  expires : ℚ
deriving DecidableEq

/-- Contents of the shared lock file: missing, present but unparsable
(for example truncated to empty, which makes json.load raise), or a
parsable record. -/
inductive LockFile where
  | absent
  | unparsable
  | record (r : LockRecord)
deriving DecidableEq

/-- State visible to one acquire_lock call: the lock-file contents,
whether another live process holds the OS-level advisory lock, and this
process's own self.lock_held flag. -/
structure LockState where
  file : LockFile
  flock_held_by_other : Bool
  lock_held : Bool
deriving DecidableEq

/-- acquire_lock (instance_manager.py lines 51-144), portalocker path.
Step for step: the early return when self.lock_held (line 58); the
open(self.lock_file_path, 'w') at line 63, which truncates the file in
place before any lock attempt; the non-blocking exclusive lock, which
succeeds exactly when no other live process holds the advisory lock and
is followed by writing our record (lines 67-87); on LockException, the
re-read of the file (line 96) — which now sees the truncated contents —
with the staleness test now - timestamp > timeout (line 101) deciding
between force-overwrite (returns true) and contention (returns false);
any read or parse failure returns false (lines 132-134). -/
def acquire_lock (self_id : String) (st : LockState) (now timeout : ℚ) :
    Bool × LockState :=
  if st.lock_held then (true, st)
  else
    let st1 : LockState := { st with file := .unparsable }
    if !st.flock_held_by_other then
      (true, { st1 with file := .record ⟨self_id, now, now + timeout⟩, lock_held := true })
    else
      match st1.file with
      | .record r =>
        if timeout < now - r.timestamp then
          (true, { st1 with file := .record ⟨self_id, now, now + timeout⟩, lock_held := true })
        else (false, st1)
      | .unparsable => (false, st1)
      | .absent => (false, st1)

/-- acquire_lock_fallback (instance_manager.py lines 146-183), used when
portalocker is unavailable: a parsable record that is not stale blocks
acquisition; a stale, unparsable or missing record is overwritten with
our record and the call succeeds. -/
def acquire_lock_fallback (self_id : String) (file : LockFile) (now timeout : ℚ) :
    Bool × LockFile :=
  match file with
  | .record r =>
    if timeout < now - r.timestamp then
      (true, .record ⟨self_id, now, now + timeout⟩)
    else (false, file)
  | .unparsable => (true, .record ⟨self_id, now, now + timeout⟩)
  | .absent => (true, .record ⟨self_id, now, now + timeout⟩)

/-- Concrete signals and analysis environments used by the closed
witness and counterexample statements. -/
def sigStrong : Signal :=
  { pair := "EUR/USD", direction := "BUY", entry_price := 1, confidence := 80,
    stop_loss := 1, take_profit := 1, is_forced := false }

def sigManualLow : Signal :=
  { pair := "GBP/USD", direction := "SELL", entry_price := 1, confidence := 60,
    stop_loss := 1, take_profit := 1, is_forced := true }

def sigTie : Signal :=
  { pair := "GBP/USD", direction := "SELL", entry_price := 2, confidence := 80,
    stop_loss := 2, take_profit := 2, is_forced := false }

def sigWeak : Signal :=
  { pair := "EUR/USD", direction := "BUY", entry_price := 1, confidence := 40,
    stop_loss := 1, take_profit := 1, is_forced := false }

def sigBorderline : Signal :=
  { pair := "EUR/USD", direction := "BUY", entry_price := 1, confidence := 72,
    stop_loss := 1, take_profit := 1, is_forced := false }

/-- Analysis environment in which every pair scores confidence 40. -/
def analysisWeak : String → TaskResult := fun _ => .sig sigWeak

/-- Analysis environment in which every pair scores confidence 72. -/
def analysisBorderline : String → TaskResult := fun _ => .sig sigBorderline

/-- Analysis environment with two equal-confidence candidates, to
exercise the stable tie-break. -/
def analysisTie : String → TaskResult :=
  fun p => if p = "EUR/USD" then .sig sigStrong else .sig sigTie

/-- Branch lemma: a direction containing BUY takes the long branch. -/
theorem calc_branch_buy (e sl tp : ℚ) (pair d : String)
    (h : strContains d "BUY" = true) :
    calculate_stop_loss_take_profit e d sl tp pair =
      (pyRound5 (e - sl / pip_multiplier pair), pyRound5 (e + tp / pip_multiplier pair)) := by
  simp [calculate_stop_loss_take_profit, h]

/-- Branch lemma: a direction containing SELL but not BUY takes the short
branch. -/
theorem calc_branch_sell (e sl tp : ℚ) (pair d : String)
    (h1 : strContains d "BUY" = false) (h2 : strContains d "SELL" = true) :
    calculate_stop_loss_take_profit e d sl tp pair =
      (pyRound5 (e + sl / pip_multiplier pair), pyRound5 (e - tp / pip_multiplier pair)) := by
  simp [calculate_stop_loss_take_profit, h1, h2]

/-- Branch lemma: a direction containing neither BUY nor SELL takes the
symmetric fallback. -/
theorem calc_branch_neutral (e sl tp : ℚ) (pair d : String)
    (h1 : strContains d "BUY" = false) (h2 : strContains d "SELL" = false) :
    calculate_stop_loss_take_profit e d sl tp pair =
      (pyRound5 (e * (995 / 1000)), pyRound5 (e * (1005 / 1000))) := by
  simp [calculate_stop_loss_take_profit, h1, h2]

/-- Rounding an integer changes nothing. -/
theorem roundHalfEven_intCast (n : ℤ) : roundHalfEven (n : ℚ) = n := by
  unfold roundHalfEven
  norm_num [Int.floor_intCast]

/-- Half-even rounding moves a rational by at most one half. -/
theorem roundHalfEven_abs_le (q : ℚ) : |(roundHalfEven q : ℚ) - q| ≤ 1 / 2 := by
  have h1 : (⌊q⌋ : ℚ) ≤ q := Int.floor_le q
  have h2 : q < ⌊q⌋ + 1 := Int.lt_floor_add_one q
  simp only [roundHalfEven]
  split_ifs with ha hb hc <;> rw [abs_le] <;> push_cast <;> constructor <;> linarith

/-- Rounding to five decimals moves a value by at most half of the last
retained decimal place. -/
theorem pyRound5_abs_le (x : ℚ) : |pyRound5 x - x| ≤ 1 / 200000 := by
  unfold pyRound5
  have h := roundHalfEven_abs_le (x * 100000)
  rw [abs_le] at h ⊢
  constructor <;> linarith

/-- A value that is already an integer multiple of one hundred-thousandth
is fixed by pyRound5. -/
theorem pyRound5_int_div (n : ℤ) : pyRound5 ((n : ℚ) / 100000) = (n : ℚ) / 100000 := by
  unfold pyRound5
  rw [div_mul_cancel₀ _ (by norm_num : (100000 : ℚ) ≠ 0), roundHalfEven_intCast]

/-- The pip scale is always 100 or 10000. -/
theorem pip_multiplier_cases (pair : String) :
    pip_multiplier pair = 100 ∨ pip_multiplier pair = 10000 := by
  unfold pip_multiplier
  split_ifs <;> simp

/-- Claim C1 (code bug): acquire_lock called by a non-holder against a
stale record (timestamp 0, expires 300, now 1000, timeout 300, so now is
far past the expiry) held under OS-level contention returns false and
leaves the lock file truncated, instead of force-overwriting the record
and returning true as the claim and the function's own stale-reclaim
branch intend: the open with mode w at line 63 empties the file before
the staleness re-read, so the parse fails and the error path returns
false. -/
theorem c1_stale_lease_not_reclaimed :
    (⟨"A", 0, 300⟩ : LockRecord).expires < 1000 ∧
    acquire_lock "B" ⟨.record ⟨"A", 0, 300⟩, true, false⟩ 1000 300 =
      (false, ⟨.unparsable, true, false⟩) :=
  ⟨by decide, rfl⟩

/-- Claim C4: for technical and AI confidences in [0, 100], the blended
confidence equals technical * 0.7 + ai * 0.3 (the clamp is the identity
there), hence lies in [0, 100]; an absent AI result contributes the
default 50. -/
theorem c4_blended_confidence (t a : ℚ) (ai : Option AIResult)
    (ht0 : 0 ≤ t) (ht1 : t ≤ 100) (ha0 : 0 ≤ a) (ha1 : a ≤ 100)
    (hai : ai_confidence_of ai = a) :
    final_confidence t ai = t * (7 / 10) + a * (3 / 10) ∧
    0 ≤ final_confidence t ai ∧ final_confidence t ai ≤ 100 ∧
    ai_confidence_of none = 50 := by
  have hx : 0 ≤ t * (7 / 10) + a * (3 / 10) := by linarith
  have hy : t * (7 / 10) + a * (3 / 10) ≤ 100 := by linarith
  have heq : final_confidence t ai = t * (7 / 10) + a * (3 / 10) := by
    unfold final_confidence
    rw [hai, max_eq_right hx, min_eq_right hy]
  exact ⟨heq, by rw [heq]; exact hx, by rw [heq]; exact hy, rfl⟩

/-- Witness for C4 at technical confidence 80 and AI confidence 60. -/
theorem c4_blended_confidence_witness :
    final_confidence 80 (some ⟨some "BUY", some 60, none⟩) =
      80 * (7 / 10) + 60 * (3 / 10) ∧
    0 ≤ final_confidence 80 (some ⟨some "BUY", some 60, none⟩) ∧
    final_confidence 80 (some ⟨some "BUY", some 60, none⟩) ≤ 100 ∧
    ai_confidence_of none = 50 :=
  c4_blended_confidence 80 60 (some ⟨some "BUY", some 60, none⟩)
    (by decide) (by decide) (by decide) (by decide) rfl

/-- Claim C5: for the five direction values of the data model, the price
levels for a BUY-containing direction are entry minus sl over the pip
scale and entry plus tp over the pip scale, mirrored for SELL-containing
ones, and the 0.995/1.005 fallback otherwise, rounded to five decimals; the
pip scale is 100 for the yen-quoted pairs and XAU/USD and 10000 for the
other instruments; the two concrete examples of the spec evaluate as
stated. -/
theorem c5_price_level_computation (e sl tp : ℚ) (pair d : String)
    (hd : d = "STRONG_BUY" ∨ d = "BUY" ∨ d = "NEUTRAL" ∨ d = "SELL" ∨ d = "STRONG_SELL") :
    ((strContains d "BUY" = true →
      calculate_stop_loss_take_profit e d sl tp pair =
        (pyRound5 (e - sl / pip_multiplier pair), pyRound5 (e + tp / pip_multiplier pair))) ∧
     (strContains d "SELL" = true →
      calculate_stop_loss_take_profit e d sl tp pair =
        (pyRound5 (e + sl / pip_multiplier pair), pyRound5 (e - tp / pip_multiplier pair))) ∧
     (strContains d "BUY" = false → strContains d "SELL" = false →
      calculate_stop_loss_take_profit e d sl tp pair =
        (pyRound5 (e * (995 / 1000)), pyRound5 (e * (1005 / 1000))))) ∧
    (pip_multiplier "USD/JPY" = 100 ∧ pip_multiplier "EUR/JPY" = 100 ∧
     pip_multiplier "GBP/JPY" = 100 ∧ pip_multiplier "XAU/USD" = 100 ∧
     pip_multiplier "EUR/USD" = 10000 ∧ pip_multiplier "GBP/USD" = 10000 ∧
     pip_multiplier "AUD/USD" = 10000 ∧ pip_multiplier "USD/CAD" = 10000 ∧
     pip_multiplier "USD/CHF" = 10000 ∧ pip_multiplier "NZD/USD" = 10000) ∧
    calculate_stop_loss_take_profit (11 / 10) "BUY" 5 15 "EUR/USD" =
      (10995 / 10000, 11015 / 10000) ∧
    calculate_stop_loss_take_profit (756 / 5) "SELL" 5 15 "USD/JPY" =
      (6050 / 40, 15105 / 100) := by
  refine ⟨?_, ⟨rfl, rfl, rfl, rfl, rfl, rfl, rfl, rfl, rfl, rfl⟩, ?_, ?_⟩
  · rcases hd with rfl | rfl | rfl | rfl | rfl
    · exact ⟨fun _ => calc_branch_buy e sl tp pair _ rfl,
        fun h => absurd h (by decide),
        fun h _ => absurd h (by decide)⟩
    · exact ⟨fun _ => calc_branch_buy e sl tp pair _ rfl,
        fun h => absurd h (by decide),
        fun h _ => absurd h (by decide)⟩
    · exact ⟨fun h => absurd h (by decide),
        fun h => absurd h (by decide),
        fun _ _ => calc_branch_neutral e sl tp pair _ rfl rfl⟩
    · exact ⟨fun h => absurd h (by decide),
        fun _ => calc_branch_sell e sl tp pair _ rfl rfl,
        fun _ h => absurd h (by decide)⟩
    · exact ⟨fun h => absurd h (by decide),
        fun _ => calc_branch_sell e sl tp pair _ rfl rfl,
        fun _ h => absurd h (by decide)⟩
  · rw [calc_branch_buy (11 / 10) 5 15 "EUR/USD" "BUY" rfl,
      show pip_multiplier "EUR/USD" = 10000 from rfl]
    have hsl : (11 / 10 : ℚ) - 5 / 10000 = ((109950 : ℤ) : ℚ) / 100000 := by norm_num
    have htp : (11 / 10 : ℚ) + 15 / 10000 = ((110150 : ℤ) : ℚ) / 100000 := by norm_num
    rw [hsl, htp, pyRound5_int_div, pyRound5_int_div]
    norm_num
  · rw [calc_branch_sell (756 / 5) 5 15 "USD/JPY" "SELL" rfl rfl,
      show pip_multiplier "USD/JPY" = 100 from rfl]
    have hsl : (756 / 5 : ℚ) + 5 / 100 = ((15125000 : ℤ) : ℚ) / 100000 := by norm_num
    have htp : (756 / 5 : ℚ) - 15 / 100 = ((15105000 : ℤ) : ℚ) / 100000 := by norm_num
    rw [hsl, htp, pyRound5_int_div, pyRound5_int_div]
    norm_num

/-- Witness for C5 at direction BUY. -/
theorem c5_price_level_computation_witness :
    calculate_stop_loss_take_profit (11 / 10) "BUY" 5 15 "EUR/USD" =
      (10995 / 10000, 11015 / 10000) :=
  (c5_price_level_computation 1 1 1 "EUR/USD" "BUY" (Or.inr (Or.inl rfl))).2.2.1

/-- Claim C10: for a positive entry price and pip distances of at least
one inside the validated setting ranges, a BUY-containing direction
yields stop_loss strictly below the entry price and take_profit strictly
above it, a SELL-containing direction the mirror image; rounding to five
decimals cannot flip the ordering because the pip offset is at least
one ten-thousandth while rounding moves a price by at most half of one
hundred-thousandth. -/
theorem c10_price_level_ordering (e sl tp : ℚ) (pair d : String)
    (he : 0 < e) (hsl1 : 1 ≤ sl) (hsl2 : sl ≤ 50) (htp1 : 1 ≤ tp) (htp2 : tp ≤ 100) :
    (strContains d "BUY" = true →
      (calculate_stop_loss_take_profit e d sl tp pair).1 < e ∧
      e < (calculate_stop_loss_take_profit e d sl tp pair).2) ∧
    (strContains d "BUY" = false → strContains d "SELL" = true →
      (calculate_stop_loss_take_profit e d sl tp pair).2 < e ∧
      e < (calculate_stop_loss_take_profit e d sl tp pair).1) := by
  have hb1 := pyRound5_abs_le (e - sl / pip_multiplier pair)
  have hb2 := pyRound5_abs_le (e + tp / pip_multiplier pair)
  have hb3 := pyRound5_abs_le (e + sl / pip_multiplier pair)
  have hb4 := pyRound5_abs_le (e - tp / pip_multiplier pair)
  rw [abs_le] at hb1 hb2 hb3 hb4
  have hmsl : 1 / 10000 ≤ sl / pip_multiplier pair := by
    rcases pip_multiplier_cases pair with h | h <;> rw [h] <;> linarith
  have hmtp : 1 / 10000 ≤ tp / pip_multiplier pair := by
    rcases pip_multiplier_cases pair with h | h <;> rw [h] <;> linarith
  constructor
  · intro hbuy
    rw [calc_branch_buy e sl tp pair d hbuy]
    constructor <;> simp only [] <;> linarith
  · intro hnb hsell
    rw [calc_branch_sell e sl tp pair d hnb hsell]
    constructor <;> simp only [] <;> linarith

/-- Witness for C10 at entry 1, BUY, stop loss 5 pips, take profit 15
pips on EUR/USD. -/
theorem c10_price_level_ordering_witness :
    (strContains "BUY" "BUY" = true →
      (calculate_stop_loss_take_profit 1 "BUY" 5 15 "EUR/USD").1 < 1 ∧
      (1 : ℚ) < (calculate_stop_loss_take_profit 1 "BUY" 5 15 "EUR/USD").2) ∧
    (strContains "BUY" "BUY" = false → strContains "BUY" "SELL" = true →
      (calculate_stop_loss_take_profit 1 "BUY" 5 15 "EUR/USD").2 < 1 ∧
      (1 : ℚ) < (calculate_stop_loss_take_profit 1 "BUY" 5 15 "EUR/USD").1) :=
  c10_price_level_ordering 1 5 15 "EUR/USD" "BUY"
    (by decide) (by decide) (by decide) (by decide) (by decide)

/-- Reduction of analyze_single_pair when every gate passes: the pipeline
always reaches the Signal construction. -/
theorem analyze_single_pair_eq (pair : String) (env : PairEnv) (tech : Technicals)
    (hhours : env.in_trading_hours = true) (hdata : ¬ env.data_rows < 5)
    (htech : env.technicals = some tech) (hconf : ¬ tech.confidence < 30) :
    analyze_single_pair pair env = some
      { pair := pair
        direction := direction_of tech.direction
          (ai_analysis_of env.ai_analyzer_present env.ai_call)
        entry_price := pyRound5 tech.price
        confidence := final_confidence tech.confidence
          (ai_analysis_of env.ai_analyzer_present env.ai_call)
        stop_loss := (calculate_stop_loss_take_profit tech.price
          (direction_of tech.direction (ai_analysis_of env.ai_analyzer_present env.ai_call))
          env.sl_pips (if pair = "XAU/USD" then env.xau_tp_pips else env.tp_pips) pair).1
        take_profit := (calculate_stop_loss_take_profit tech.price
          (direction_of tech.direction (ai_analysis_of env.ai_analyzer_present env.ai_call))
          env.sl_pips (if pair = "XAU/USD" then env.xau_tp_pips else env.tp_pips) pair).2
        is_forced := false } := by
  simp [analyze_single_pair, hhours, htech, hdata, hconf]

/-- Helper: in every AI failure mode the resulting ai_analysis value
contributes the neutral default 50 and leaves the direction technical. -/
theorem ai_failure_neutral (present : Bool) (call : Except Unit AIResult)
    (ty : String) (tech_direction : String)
    (hfail : present = false ∨ call = .error () ∨
      (∃ e, (e = AICallEnv.noKey ∨ e = .transportError ∨
             e = .noJsonMatch ∨ e = .badJson) ∧
        call = .ok (analyze_pair ty e))) :
    ai_confidence_of (ai_analysis_of present call) = 50 ∧
    direction_of tech_direction (ai_analysis_of present call) = tech_direction := by
  rcases hfail with hp | hc | ⟨ev, hev, hc⟩
  · subst hp
    exact ⟨rfl, rfl⟩
  · subst hc
    cases present <;> exact ⟨rfl, rfl⟩
  · subst hc
    cases present
    · exact ⟨rfl, rfl⟩
    · rcases hev with rfl | rfl | rfl | rfl <;>
        simp [ai_analysis_of, analyze_pair, ai_confidence_of, direction_of]

/-- Claim C9: absence or failure of the AI scorer — no analyzer
configured, a raised call, no API key, transport failure, or a malformed
response — resolves to the neutral default confidence 50 and a NEUTRAL
direction contribution, and the per-pair pipeline still produces a
Signal blending the technical score with ai_confidence = 50 and keeping
the technical direction. -/
theorem c9_ai_failure_still_produces (pair ty : String) (env : PairEnv)
    (tech : Technicals)
    (hhours : env.in_trading_hours = true) (hdata : ¬ env.data_rows < 5)
    (htech : env.technicals = some tech) (hconf : ¬ tech.confidence < 30)
    (hfail : env.ai_analyzer_present = false ∨ env.ai_call = .error () ∨
      (∃ e, (e = AICallEnv.noKey ∨ e = .transportError ∨
             e = .noJsonMatch ∨ e = .badJson) ∧
        env.ai_call = .ok (analyze_pair ty e))) :
    ∃ s, analyze_single_pair pair env = some s ∧
      s.confidence = min 100 (max 0 (tech.confidence * (7 / 10) + 50 * (3 / 10))) ∧
      s.direction = tech.direction := by
  obtain ⟨h50, hdir⟩ :=
    ai_failure_neutral env.ai_analyzer_present env.ai_call ty tech.direction hfail
  rw [analyze_single_pair_eq pair env tech hhours hdata htech hconf]
  refine ⟨_, rfl, ?_, hdir⟩
  simp only [final_confidence, h50]

/-- Witness for C9: no AI analyzer configured, technicals at confidence
80 with direction BUY. -/
theorem c9_ai_failure_still_produces_witness :
    ∃ s, analyze_single_pair "EUR/USD"
        ⟨true, 10, some ⟨"BUY", 80, 1⟩, false, .ok ⟨none, none, none⟩, 5, 15, 20⟩ = some s ∧
      s.confidence = min 100 (max 0 ((80 : ℚ) * (7 / 10) + 50 * (3 / 10))) ∧
      s.direction = "BUY" :=
  c9_ai_failure_still_produces "EUR/USD" "detailed"
    ⟨true, 10, some ⟨"BUY", 80, 1⟩, false, .ok ⟨none, none, none⟩, 5, 15, 20⟩
    ⟨"BUY", 80, 1⟩ rfl (by decide) rfl (by decide) (Or.inl rfl)

/-- Claim C2 counterexample: scan_active_pairs returns the very same
empty outcome (none) for an empty active-pair list and for a non-empty
list in which no pair meets the threshold, so the scan's return value
does not distinguish the two causes. -/
theorem c2_scan_outcomes_collapse :
    scan_active_pairs 70 analysisWeak [] = none ∧
    scan_active_pairs 70 analysisWeak ["EUR/USD"] = none ∧
    scan_active_pairs 70 analysisWeak [] = scan_active_pairs 70 analysisWeak ["EUR/USD"] :=
  ⟨rfl, rfl, rfl⟩

/-- Claim C2 amended: the distinction between the two no-signal causes is
made by the calling command, not by the scan's return value: cmd_auto
checks the active-pair list before scanning and surfaces
noActiveInstruments without scanning, and surfaces noCandidate exactly
when a scan over a non-empty list returns none; the two outcomes are
distinct constructors. -/
theorem c2_command_distinguishes_outcomes (minConf : ℚ)
    (analysis : String → TaskResult) (pairs : List String) :
    (pairs = [] →
      cmd_auto_outcome true none minConf analysis pairs = (.noActiveInstruments, none)) ∧
    (pairs ≠ [] → scan_active_pairs minConf analysis pairs = none →
      cmd_auto_outcome true none minConf analysis pairs = (.noCandidate, none)) ∧
    (CmdOutcome.noActiveInstruments ≠ CmdOutcome.noCandidate) := by
  refine ⟨?_, ?_, by decide⟩
  · intro h
    subst h
    rfl
  · intro hne hscan
    have hemp : pairs.isEmpty = false := by
      cases pairs
      · exact absurd rfl hne
      · rfl
    simp [cmd_auto_outcome, hemp, hscan]

/-- Witness for C2 amended, on the empty list and on a one-pair list
whose candidate stays below the threshold. -/
theorem c2_command_distinguishes_outcomes_witness :
    (([] : List String) = [] →
      cmd_auto_outcome true none 70 analysisWeak [] = (.noActiveInstruments, none)) ∧
    (([] : List String) ≠ [] → scan_active_pairs 70 analysisWeak [] = none →
      cmd_auto_outcome true none 70 analysisWeak [] = (.noCandidate, none)) ∧
    (CmdOutcome.noActiveInstruments ≠ CmdOutcome.noCandidate) :=
  c2_command_distinguishes_outcomes 70 analysisWeak []

/-- Claim C8 counterexample: a scan cycle run by the scheduler succeeds
with a signal of confidence 72 (above the auto threshold 70), yet the
tick leaves the registry empty because of the additional confidence
gate at 75 (bot_handlers.py line 2640); only the timestamp is updated. -/
theorem c8_returned_signal_not_stored :
    scan_active_pairs 70 analysisBorderline ["EUR/USD"] = some sigBorderline ∧
    auto_scanner_tick ⟨none, none⟩ 1000 analysisBorderline ["EUR/USD"] =
      ⟨none, some 1000⟩ :=
  ⟨rfl, rfl⟩

/-- Claim C8 amended: on a tick with empty registry, a due scan and a
non-empty active list, exactly one scan runs with the auto threshold 70;
its result is stored only when its confidence is at least 75 and is
discarded otherwise, and the last-scan timestamp is updated regardless
of the outcome. -/
theorem c8_tick_behaviour (st : ScannerState) (now : ℚ)
    (analysis : String → TaskResult) (pairs : List String)
    (hreg : st.registry = none) (hdue : scan_due st.last_auto_scan now = true)
    (hpairs : pairs ≠ []) :
    (auto_scanner_tick st now analysis pairs).last_auto_scan = some now ∧
    (∀ s, scan_active_pairs 70 analysis pairs = some s →
      (75 ≤ s.confidence → (auto_scanner_tick st now analysis pairs).registry = some s) ∧
      (s.confidence < 75 → (auto_scanner_tick st now analysis pairs).registry = none)) ∧
    (scan_active_pairs 70 analysis pairs = none →
      (auto_scanner_tick st now analysis pairs).registry = none) := by
  have hemp : pairs.isEmpty = false := by
    cases pairs
    · exact absurd rfl hpairs
    · rfl
  obtain ⟨r, l⟩ := st
  cases hreg
  refine ⟨?_, ?_, ?_⟩
  · simp only [auto_scanner_tick, hdue, hemp, Bool.not_true, Bool.false_eq_true, if_false]
    cases hscan : scan_active_pairs 70 analysis pairs with
    | none => rfl
    | some s =>
      by_cases h75 : 75 ≤ s.confidence
      · simp [h75]
      · simp [h75]
  · intro s hscan
    constructor
    · intro h75
      simp [auto_scanner_tick, hdue, hemp, hscan, h75]
    · intro h75
      simp [auto_scanner_tick, hdue, hemp, hscan, not_le.mpr h75]
  · intro hscan
    simp [auto_scanner_tick, hdue, hemp, hscan]

/-- Witness for C8 amended: the borderline scan on one pair. -/
theorem c8_tick_behaviour_witness :
    (auto_scanner_tick ⟨none, none⟩ 1000 analysisBorderline ["EUR/USD"]).last_auto_scan =
      some 1000 ∧
    (∀ s, scan_active_pairs 70 analysisBorderline ["EUR/USD"] = some s →
      (75 ≤ s.confidence →
        (auto_scanner_tick ⟨none, none⟩ 1000 analysisBorderline ["EUR/USD"]).registry = some s) ∧
      (s.confidence < 75 →
        (auto_scanner_tick ⟨none, none⟩ 1000 analysisBorderline ["EUR/USD"]).registry = none)) ∧
    (scan_active_pairs 70 analysisBorderline ["EUR/USD"] = none →
      (auto_scanner_tick ⟨none, none⟩ 1000 analysisBorderline ["EUR/USD"]).registry = none) :=
  c8_tick_behaviour ⟨none, none⟩ 1000 analysisBorderline ["EUR/USD"] rfl rfl (by decide)

/-- Claim C3 counterexample: an interleaved trace in which both
producers pass their emptiness checks while the registry is empty, the
auto scanner stores its signal, and the manual command then overwrites
the occupied slot: the final step fires from a state whose registry
holds sigStrong and replaces it with a different signal, so an occupied
slot is neither left unchanged nor written only under an emptiness
observation at write time. -/
theorem c3_occupied_slot_overwritten :
    RegStep ⟨none, .idle, .idle⟩ ⟨none, .idle, .scanning (some sigStrong)⟩ ∧
    RegStep ⟨none, .idle, .scanning (some sigStrong)⟩
      ⟨none, .scanning (some sigManualLow), .scanning (some sigStrong)⟩ ∧
    RegStep ⟨none, .scanning (some sigManualLow), .scanning (some sigStrong)⟩
      ⟨some sigStrong, .scanning (some sigManualLow), .done⟩ ∧
    RegStep ⟨some sigStrong, .scanning (some sigManualLow), .done⟩
      ⟨some sigManualLow, .done, .done⟩ ∧
    sigStrong ≠ sigManualLow :=
  ⟨RegStep.autoStart _ (some sigStrong) rfl rfl,
   RegStep.manualStart _ (some sigManualLow) rfl rfl,
   RegStep.autoFinishStore _ sigStrong rfl (by decide),
   RegStep.manualFinishStore _ sigManualLow rfl,
   by decide⟩

/-- Claim C3 amended: emptiness is only checked at the start of each
signal-producing operation: a producer whose check step runs against an
occupied slot fails without mutating the occupant (it can never begin a
scan there), but the store step after the scan is unconditional, so a
signal stored concurrently during the scan window can be overwritten. -/
theorem c3_guard_fails_without_mutation (s t : RegistrySys) (x : Signal)
    (hreg : s.registry = some x) (hstep : RegStep s t) :
    (s.manual = .idle → t.manual ≠ s.manual →
      t.manual = .done ∧ t.registry = some x) ∧
    (s.auto = .idle → t.auto ≠ s.auto →
      t.auto = .done ∧ t.registry = some x) := by
  cases hstep with
  | manualStart res h1 h2 => rw [hreg] at h2; simp at h2
  | manualGuardFail y h1 h2 =>
    exact ⟨fun _ _ => ⟨rfl, hreg⟩, fun _ hne => absurd rfl hne⟩
  | manualFinishNone h1 =>
    refine ⟨fun hidle _ => ?_, fun _ hne => absurd rfl hne⟩
    rw [h1] at hidle
    simp at hidle
  | manualFinishStore sig h1 =>
    refine ⟨fun hidle _ => ?_, fun _ hne => absurd rfl hne⟩
    rw [h1] at hidle
    simp at hidle
  | autoStart res h1 h2 => rw [hreg] at h2; simp at h2
  | autoSkipOccupied y h1 h2 =>
    exact ⟨fun _ hne => absurd rfl hne, fun _ _ => ⟨rfl, hreg⟩⟩
  | autoFinishNone h1 =>
    refine ⟨fun _ hne => absurd rfl hne, fun hidle _ => ?_⟩
    rw [h1] at hidle
    simp at hidle
  | autoFinishStore sig h1 h2 =>
    refine ⟨fun _ hne => absurd rfl hne, fun hidle _ => ?_⟩
    rw [h1] at hidle
    simp at hidle
  | autoFinishWeak sig h1 h2 =>
    refine ⟨fun _ hne => absurd rfl hne, fun hidle _ => ?_⟩
    rw [h1] at hidle
    simp at hidle

/-- Witness for C3 amended: the manual guard rejecting against an
occupied registry. -/
theorem c3_guard_fails_without_mutation_witness :
    ((⟨some sigStrong, .idle, .idle⟩ : RegistrySys).manual = .idle →
      (⟨some sigStrong, .done, .idle⟩ : RegistrySys).manual ≠
        (⟨some sigStrong, .idle, .idle⟩ : RegistrySys).manual →
      (⟨some sigStrong, .done, .idle⟩ : RegistrySys).manual = .done ∧
      (⟨some sigStrong, .done, .idle⟩ : RegistrySys).registry = some sigStrong) ∧
    ((⟨some sigStrong, .idle, .idle⟩ : RegistrySys).auto = .idle →
      (⟨some sigStrong, .done, .idle⟩ : RegistrySys).auto ≠
        (⟨some sigStrong, .idle, .idle⟩ : RegistrySys).auto →
      (⟨some sigStrong, .done, .idle⟩ : RegistrySys).auto = .done ∧
      (⟨some sigStrong, .done, .idle⟩ : RegistrySys).registry = some sigStrong) :=
  c3_guard_fails_without_mutation ⟨some sigStrong, .idle, .idle⟩
    ⟨some sigStrong, .done, .idle⟩ sigStrong rfl
    (RegStep.manualGuardFail _ sigStrong rfl rfl)

/-- The head of an insertion is the more confident of the inserted
element and the old head, the inserted element winning ties. -/
theorem insertDesc_head (a : Signal) (l : List Signal) :
    (insertDesc a l).head? = some (match l.head? with
      | none => a
      | some b => if b.confidence ≤ a.confidence then a else b) := by
  cases l with
  | nil => rfl
  | cons b rest =>
    by_cases hb : b.confidence ≤ a.confidence <;> simp [insertDesc, hb]

/-- find? only depends on the predicate's values on members. -/
theorem find?_congr_mem {α : Type} (p q : α → Bool) (l : List α)
    (h : ∀ x ∈ l, p x = q x) : l.find? p = l.find? q := by
  induction l with
  | nil => rfl
  | cons a t ih =>
    have ha := h a (List.mem_cons_self a t)
    by_cases hp : p a = true
    · rw [List.find?_cons_of_pos _ hp, List.find?_cons_of_pos _ (ha ▸ hp)]
    · rw [List.find?_cons_of_neg _ hp, List.find?_cons_of_neg _ (ha ▸ hp)]
      exact ih fun x hx => h x (List.mem_cons_of_mem a hx)

/-- Every non-empty list has a maximal-confidence element. -/
theorem exists_max_confidence (l : List Signal) (hne : l ≠ []) :
    ∃ x ∈ l, ∀ u ∈ l, u.confidence ≤ x.confidence := by
  induction l with
  | nil => exact absurd rfl hne
  | cons a t ih =>
    cases t with
    | nil =>
      refine ⟨a, List.mem_cons_self a [], fun u hu => ?_⟩
      rw [List.mem_singleton] at hu
      rw [hu]
    | cons b t2 =>
      obtain ⟨x, hx, hmax⟩ := ih (by simp)
      by_cases hc : x.confidence ≤ a.confidence
      · refine ⟨a, List.mem_cons_self a (b :: t2), fun u hu => ?_⟩
        rcases List.mem_cons.mp hu with rfl | hu
        · exact le_refl _
        · exact le_trans (hmax u hu) hc
      · refine ⟨x, List.mem_cons_of_mem a hx, fun u hu => ?_⟩
        rcases List.mem_cons.mp hu with rfl | hu
        · exact le_of_lt (not_le.mp hc)
        · exact hmax u hu

/-- firstTop misses exactly on the empty pool. -/
theorem firstTop_eq_none_iff (l : List Signal) : firstTop l = none ↔ l = [] := by
  constructor
  · intro h
    by_contra hne
    obtain ⟨x, hx, hmax⟩ := exists_max_confidence l hne
    rw [firstTop, List.find?_eq_none] at h
    apply h x hx
    rw [List.all_eq_true]
    intro u hu
    exact decide_eq_true (hmax u hu)
  · intro h
    subst h
    rfl

/-- The head of the stable descending sort is the earliest element of
maximal confidence. -/
theorem pySortDesc_head (l : List Signal) : (pySortDesc l).head? = firstTop l := by
  induction l with
  | nil => rfl
  | cons a t ih =>
    rw [show pySortDesc (a :: t) = insertDesc a (pySortDesc t) from rfl,
      insertDesc_head, ih]
    cases hft : firstTop t with
    | none =>
      have ht : t = [] := (firstTop_eq_none_iff t).mp hft
      subst ht
      simp [firstTop]
    | some b =>
      have hbmem : b ∈ t := List.mem_of_find?_eq_some hft
      have hball := List.find?_some hft
      rw [List.all_eq_true] at hball
      have hble : ∀ u ∈ t, u.confidence ≤ b.confidence :=
        fun u hu => of_decide_eq_true (hball u hu)
      show some (if b.confidence ≤ a.confidence then a else b) = firstTop (a :: t)
      by_cases hc : b.confidence ≤ a.confidence
      · rw [if_pos hc]
        have hpa : ((a :: t).all fun u => decide (u.confidence ≤ a.confidence)) = true := by
          rw [List.all_eq_true]
          intro u hu
          rcases List.mem_cons.mp hu with rfl | hu
          · exact decide_eq_true (le_refl _)
          · exact decide_eq_true (le_trans (hble u hu) hc)
        rw [firstTop]
        rw [List.find?_cons, hpa]
      · rw [if_neg hc]
        have halt : a.confidence < b.confidence := not_le.mp hc
        have hpa : ¬ (((a :: t).all fun u => decide (u.confidence ≤ a.confidence)) = true) := by
          rw [List.all_eq_true]
          intro hall
          exact absurd (of_decide_eq_true (hall b (List.mem_cons_of_mem a hbmem)))
            (not_le.mpr halt)
        rw [firstTop]
        have hstep : List.find?
            (fun x => (a :: t).all fun u => decide (u.confidence ≤ x.confidence)) (a :: t) =
            List.find?
            (fun x => (a :: t).all fun u => decide (u.confidence ≤ x.confidence)) t :=
          List.find?_cons_of_neg _ hpa
        rw [hstep,
          find?_congr_mem _ (fun x => t.all fun u => decide (u.confidence ≤ x.confidence)) t ?_]
        · exact hft.symm
        · intro x hx
          by_cases hpx : (t.all fun u => decide (u.confidence ≤ x.confidence)) = true
          · have hbx : b.confidence ≤ x.confidence :=
              of_decide_eq_true ((List.all_eq_true.mp hpx) b hbmem)
            rw [List.all_cons, hpx,
              decide_eq_true (le_of_lt (lt_of_lt_of_le halt hbx))]
            simp [hpx]
          · have hfx : (t.all fun u => decide (u.confidence ≤ x.confidence)) = false :=
              Bool.eq_false_iff.mpr hpx
            rw [List.all_cons, hfx, Bool.and_false]
            simp [hfx]

/-- The pool accumulated batch by batch is the order-preserving filter
of the concatenated batch results. -/
theorem collectSignals_eq_join (minConf : ℚ) (batches : List (List TaskResult)) :
    collectSignals minConf batches =
      batches.flatten.filterMap (keepSignal minConf) := by
  suffices h : ∀ acc : List Signal,
      batches.foldl (fun acc results => acc ++ results.filterMap (keepSignal minConf)) acc =
        acc ++ batches.flatten.filterMap (keepSignal minConf) by
    have := h []
    rwa [List.nil_append] at this
  induction batches with
  | nil => intro acc; simp
  | cons r rs ih =>
    intro acc
    rw [List.foldl_cons, ih, List.flatten_cons, List.filterMap_append, List.append_assoc]

/-- Everything kept in the pool met the threshold. -/
theorem collectSignals_member_ge (minConf : ℚ) (batches : List (List TaskResult)) :
    ∀ s ∈ collectSignals minConf batches, minConf ≤ s.confidence := by
  intro s hs
  rw [collectSignals_eq_join] at hs
  obtain ⟨tr, _, hkeep⟩ := List.mem_filterMap.mp hs
  cases tr with
  | sig w =>
    rw [keepSignal] at hkeep
    by_cases hw : minConf ≤ w.confidence
    · rw [if_pos hw] at hkeep
      cases hkeep
      exact hw
    · rw [if_neg hw] at hkeep
      cases hkeep
  | skipped => cases hkeep
  | raised => cases hkeep

/-- Claim C6: when a scan returns a signal, it is (up to the is_forced
reset) the earliest maximal-confidence element of the pool of passing
results; the pool lists results batch by batch and, within a batch, in
pair order (asyncio.gather returns results in task order, independent of
completion timing), so the tie-break is earliest batch then earliest
position within it, every pool member meets the threshold, and the
selected signal dominates the whole pool. -/
theorem c6_stable_best_selection (minConf : ℚ) (analysis : String → TaskResult)
    (pairs : List String) (s : Signal)
    (hscan : scan_active_pairs minConf analysis pairs = some s) :
    ∃ b, firstTop (collectSignals minConf ((chunks3 pairs).map fun batch => batch.map analysis)) = some b ∧
      s = { b with is_forced := false } ∧
      b ∈ collectSignals minConf ((chunks3 pairs).map fun batch => batch.map analysis) ∧
      minConf ≤ b.confidence ∧
      (∀ u ∈ collectSignals minConf ((chunks3 pairs).map fun batch => batch.map analysis),
        u.confidence ≤ b.confidence) ∧
      collectSignals minConf ((chunks3 pairs).map fun batch => batch.map analysis) =
        ((chunks3 pairs).map fun batch => batch.map analysis).flatten.filterMap (keepSignal minConf) := by
  by_cases hp : pairs.isEmpty
  · rw [scan_active_pairs, if_pos hp] at hscan
    cases hscan
  · rw [scan_active_pairs, if_neg hp] at hscan
    cases hh : (pySortDesc (collectSignals minConf
        ((chunks3 pairs).map fun batch => batch.map analysis))).head? with
    | none => rw [hh] at hscan; cases hscan
    | some b =>
      rw [hh] at hscan
      have hb : firstTop (collectSignals minConf
          ((chunks3 pairs).map fun batch => batch.map analysis)) = some b := by
        rw [← pySortDesc_head]
        exact hh
      have hmem : b ∈ collectSignals minConf
          ((chunks3 pairs).map fun batch => batch.map analysis) :=
        List.mem_of_find?_eq_some hb
      have hpall := List.find?_some hb
      rw [List.all_eq_true] at hpall
      refine ⟨b, hb, ?_, hmem, collectSignals_member_ge minConf _ b hmem,
        fun u hu => of_decide_eq_true (hpall u hu), collectSignals_eq_join minConf _⟩
      cases hscan
      rfl

/-- Witness for C6: two candidates tied at confidence 80; the earlier
pair wins. -/
theorem c6_stable_best_selection_witness :
    ∃ b, firstTop (collectSignals 70 ((chunks3 ["EUR/USD", "GBP/USD"]).map fun batch => batch.map analysisTie)) = some b ∧
      sigStrong = { b with is_forced := false } ∧
      b ∈ collectSignals 70 ((chunks3 ["EUR/USD", "GBP/USD"]).map fun batch => batch.map analysisTie) ∧
      (70 : ℚ) ≤ b.confidence ∧
      (∀ u ∈ collectSignals 70 ((chunks3 ["EUR/USD", "GBP/USD"]).map fun batch => batch.map analysisTie),
        u.confidence ≤ b.confidence) ∧
      collectSignals 70 ((chunks3 ["EUR/USD", "GBP/USD"]).map fun batch => batch.map analysisTie) =
        ((chunks3 ["EUR/USD", "GBP/USD"]).map fun batch => batch.map analysisTie).flatten.filterMap (keepSignal 70) :=
  c6_stable_best_selection 70 analysisTie ["EUR/USD", "GBP/USD"] sigStrong rfl

/-- The batches concatenate back to the original list. -/
theorem chunks3_flatten : ∀ (l : List String), (chunks3 l).flatten = l
  | [] => rfl
  | [_] => rfl
  | [_, _] => rfl
  | a :: b :: c :: rest => by
    have ih := chunks3_flatten rest
    simp [chunks3, ih]

/-- Every batch is non-empty and holds at most three pairs. -/
theorem chunks3_sizes : ∀ (l : List String), ∀ b ∈ chunks3 l, b ≠ [] ∧ b.length ≤ 3
  | [] => by intro b hb; cases hb
  | [a] => by
    intro b hb
    rw [show chunks3 [a] = [[a]] from rfl, List.mem_singleton] at hb
    subst hb
    exact ⟨by simp, by simp⟩
  | [a, a2] => by
    intro b hb
    rw [show chunks3 [a, a2] = [[a, a2]] from rfl, List.mem_singleton] at hb
    subst hb
    exact ⟨by simp, by simp⟩
  | a :: a2 :: a3 :: rest => by
    intro b hb
    rw [show chunks3 (a :: a2 :: a3 :: rest) = [a, a2, a3] :: chunks3 rest from rfl,
      List.mem_cons] at hb
    rcases hb with rfl | hb
    · exact ⟨by simp, by simp⟩
    · exact chunks3_sizes rest b hb

/-- Every batch except possibly the last is full (three pairs). -/
theorem chunks3_dropLast_full :
    ∀ (l : List String), ∀ b ∈ (chunks3 l).dropLast, b.length = 3
  | [] => by intro b hb; cases hb
  | [a] => by intro b hb; cases hb
  | [a, a2] => by intro b hb; cases hb
  | a :: a2 :: a3 :: rest => by
    intro b hb
    rw [show chunks3 (a :: a2 :: a3 :: rest) = [a, a2, a3] :: chunks3 rest from rfl] at hb
    cases hr : chunks3 rest with
    | nil => rw [hr] at hb; cases hb
    | cons y ys =>
      rw [hr, List.dropLast_cons₂, List.mem_cons] at hb
      rcases hb with rfl | hb
      · rfl
      · rw [← hr] at hb
        exact chunks3_dropLast_full rest b hb

/-- A foldr building batch-sleep step pairs is the flattened map. -/
theorem scanTrace_eq_map (bs : List (List String)) :
    bs.foldr (fun b acc => ScanEvent.batchRun b :: ScanEvent.pacingSleep :: acc) [] =
      (bs.map fun b => [ScanEvent.batchRun b, ScanEvent.pacingSleep]).flatten := by
  induction bs with
  | nil => rfl
  | cons b t ih => simp [ih]

/-- Claim C7: the scan partitions the ordered pair list into consecutive
batches of three preserving order (their concatenation is the original
list, every batch is non-empty with at most three pairs, and every batch
before the last has exactly three); the step trace processes the batches
strictly in order with the pacing sleep after each batch, so a sleep
separates every two consecutive batches; the list [A, B, C, D] yields
the batches [A, B, C] then [D]. -/
theorem c7_batch_partitioning (l : List String) :
    (chunks3 l).flatten = l ∧
    (∀ b ∈ chunks3 l, b ≠ [] ∧ b.length ≤ 3) ∧
    (∀ b ∈ (chunks3 l).dropLast, b.length = 3) ∧
    scanTrace l = ((chunks3 l).map fun b => [ScanEvent.batchRun b, ScanEvent.pacingSleep]).flatten ∧
    chunks3 ["A", "B", "C", "D"] = [["A", "B", "C"], ["D"]] ∧
    scanTrace ["A", "B", "C", "D"] =
      [.batchRun ["A", "B", "C"], .pacingSleep, .batchRun ["D"], .pacingSleep] :=
  ⟨chunks3_flatten l, chunks3_sizes l, chunks3_dropLast_full l,
   scanTrace_eq_map (chunks3 l), rfl, rfl⟩

/-- Witness for C7 at the four-element list of the spec example. -/
theorem c7_batch_partitioning_witness :
    (chunks3 ["A", "B", "C", "D"]).flatten = ["A", "B", "C", "D"] ∧
    (∀ b ∈ chunks3 ["A", "B", "C", "D"], b ≠ [] ∧ b.length ≤ 3) ∧
    (∀ b ∈ (chunks3 ["A", "B", "C", "D"]).dropLast, b.length = 3) ∧
    scanTrace ["A", "B", "C", "D"] =
      ((chunks3 ["A", "B", "C", "D"]).map fun b => [ScanEvent.batchRun b, ScanEvent.pacingSleep]).flatten ∧
    chunks3 ["A", "B", "C", "D"] = [["A", "B", "C"], ["D"]] ∧
    scanTrace ["A", "B", "C", "D"] =
      [.batchRun ["A", "B", "C"], .pacingSleep, .batchRun ["D"], .pacingSleep] :=
  c7_batch_partitioning ["A", "B", "C", "D"]

end ForexBot
